import Mathlib

/-!
# Authenticated control-plane handlers of `api/server.go`

A shallow embedding of the three request handlers of the API server
(`startModule`, `stopModule`, `getPort`) together with the values they
exchange with their collaborators.

* Go byte slices are lists of byte values; a nil slice is `none`.
* Go `error` values are modelled by `GoError`; a nil error is `none`.
* The collaborators (the `Engine` interface, package `utils`) are stateful:
  every call takes the current world `σ` and returns the next one.
* Every collaborator call and every log call is appended to a trace, so that
  "is never invoked" and "is invoked exactly once" are statements about the
  trace of a handler run.
-/

namespace Api

/-! ## Data model -/

/-- A Go `[]byte` value that is not nil: the list of its byte values. -/
abbrev Bytes := List Nat

/-- The bytes of an ASCII string. -/
def ascii (s : String) : Bytes := s.toList.map Char.toNat

/-- Modelled from the spec: `config.Module` is declared outside `api/server.go`;
the spec describes it as a name plus engine-specific configuration, which
this layer never inspects. Only the field `Name` is read by the handlers. -/
structure Module where
  Name : String
  Config : Bytes
deriving DecidableEq, Repr

/-- Go `error` values as the handlers see and build them.
`foreign` is an error minted by a collaborator, `errorf` is the result of
`errors.Errorf`, `trace` is the result of `errors.Trace` on a non-nil error. -/
inductive GoError where
  | foreign (msg : String)
  | errorf (msg : String)
  | trace (previous : GoError)
deriving DecidableEq, Repr

namespace GoError

/-- The text of `err.Error()`: `errors.Trace` adds a location, no message. -/
def message : GoError → String
  | foreign msg => msg
  | errorf msg => msg
  | trace previous => previous.message

/-- The value of `errors.Cause(err)`: the innermost error below every `Trace`. -/
def cause : GoError → GoError
  | foreign msg => foreign msg
  | errorf msg => errorf msg
  | trace previous => previous.cause

end GoError

/-- Log levels of the logger; the handlers only ever log with `Errorf`. -/
inductive Level where
  | debug
  | info
  | warn
  | error
deriving DecidableEq, Repr

/-- One record handed to the logger: `s.log.Errorf(...)` leaves `err` empty,
`s.log.WithError(err).Errorf(...)` fills it. -/
structure LogRecord where
  level : Level
  err : Option GoError
  msg : String
deriving DecidableEq, Repr

/-- The observable actions of a handler run, in the order they happen. -/
inductive Event where
  | authenticate (username password : String)
  | start (m : Module)
  | stop (moduleName : String)
  | getPortAvailable (host : String)
  | log (r : LogRecord)
deriving DecidableEq, Repr

/-- The `http.Params` value: a Go `map[string]string`, as an association list
(the first entry of a key is the one the map holds). -/
abbrev Params := List (String × String)

/-- The two-result index expression `v, ok := params[key]`. -/
def Params.get? (params : Params) (key : String) : Option String :=
  List.lookup key params

/-- The one-result index expression `params[key]`: the zero value `""` when the
key is absent. -/
def Params.index (params : Params) (key : String) : String :=
  (params.get? key).getD ""

/-- The `http.Headers` value, seen through its only method the handlers use:
`Get` returns the value of a header, `""` when it is absent. -/
structure Headers where
  Get : String → String

/-- The `Engine` interface. Every method may read and change the world. -/
structure Engine (σ : Type) where
  Start : Module → σ → Option GoError × σ
  Stop : String → σ → Option GoError × σ
  Authenticate : String → String → σ → Bool × σ

/-- The two functions of package `utils` the handlers call; the package is
outside `api/server.go`, so both are parameters of the model.
`UnmarshalJSON` fills a fresh `config.Module` or returns an error;
`GetPortAvailable` returns a Go `(int, error)` pair. -/
structure Utils (σ : Type) where
  UnmarshalJSON : Bytes → Except GoError Module
  GetPortAvailable : String → σ → (Int × Option GoError) × σ

/-- The `Server` struct, reduced to the fields the handlers read. The logger
field is modelled by the `Event.log` entries of the trace. -/
structure Server (σ : Type) where
  engine : Engine σ

/-- What a handler run leaves behind: the two Go results `([]byte, error)`,
the world after the run, and the trace of the run. -/
structure Outcome (σ : Type) where
  body : Option Bytes
  err : Option GoError
  world : σ
  trace : List Event

/-! ## `encoding/json` on the port object -/

/-- The decimal digits of `n`, most significant first, pushed in front of
`acc`. The first argument bounds the number of digits. -/
def appendDecimal : Nat → Nat → Bytes → Bytes
  | 0, _, acc => acc
  | fuel + 1, n, acc =>
    if n < 10 then (48 + n) :: acc
    else appendDecimal fuel (n / 10) ((48 + n % 10) :: acc)

/-- The decimal text of a natural number. -/
def formatNat (n : Nat) : Bytes := appendDecimal (n + 1) n []

/-- The decimal text of a Go `int`, with a leading `-` when negative. -/
def formatInt : Int → Bytes
  | Int.ofNat n => formatNat n
  | Int.negSucc n => 45 :: formatNat (n + 1)

/-- The result of `json.Marshal(&data)` for `data := map[string]int{"port": port}`:
the object text with the single key `port`; marshalling this type cannot fail. -/
def marshalPortMap (port : Int) : Bytes × Option GoError :=
  (ascii "\x7b\"port\":" ++ formatInt port ++ ascii "\x7d", none)

/-! ### A reader for the response body

The server never decodes its own response. The reader below states what a
client that decodes the body with `encoding/json` into a `map[string]int`
gets. It follows the JSON grammar on the inputs it accepts: whitespace is
allowed between tokens, a number has no leading zero, and the value must fit a
64-bit Go `int`. It is stricter than `encoding/json` in that it reads objects
with exactly one member whose key is plain ASCII without escapes. -/

/-- Drops leading JSON whitespace: space, tab, line feed, carriage return. -/
def skipSpace : Bytes → Bytes
  | [] => []
  | b :: bs => if b = 32 ∨ b = 9 ∨ b = 10 ∨ b = 13 then skipSpace bs else b :: bs

/-- Reads leading decimal digits into `acc`; returns the number and the rest. -/
def readDigits : Bytes → Nat → Nat × Bytes
  | [], acc => (acc, [])
  | b :: bs, acc =>
    if 48 ≤ b ∧ b ≤ 57 then readDigits bs (acc * 10 + (b - 48)) else (acc, b :: bs)

/-- Reads the digits of a JSON number: a single `0`, or a digit from `1` to `9`
followed by any digits. After a leading `0` the reading stops, so that `007`
leaves `07` unread. -/
def readNat : Bytes → Option (Nat × Bytes)
  | [] => none
  | b :: bs =>
    if b = 48 then some (0, bs)
    else if 49 ≤ b ∧ b ≤ 57 then some (readDigits bs (b - 48))
    else none

/-- Reads a JSON integer into a 64-bit Go `int`: an optional `-`, the digits,
and the range check of `strconv.ParseInt`. -/
def readInt : Bytes → Option (Int × Bytes)
  | [] => none
  | b :: bs =>
    if b = 45 then
      match readNat bs with
      | some (n, rest) => if n ≤ 9223372036854775808 then some (-(n : Int), rest) else none
      | none => none
    else
      match readNat (b :: bs) with
      | some (n, rest) => if n < 9223372036854775808 then some ((n : Int), rest) else none
      | none => none

/-- Reads the bytes of a JSON string up to the closing quote. Escapes, control
bytes and bytes outside ASCII are refused. -/
def readKey : Bytes → Option (Bytes × Bytes)
  | [] => none
  | b :: bs =>
    if b = 34 then some ([], bs)
    else if b = 92 ∨ b < 32 ∨ 128 ≤ b then none
    else match readKey bs with
      | some (k, rest) => some (b :: k, rest)
      | none => none

/-- Decodes the text of a JSON object with exactly one member whose value is an
integer, such as `{"key":value}`: returns the key and the value. Nothing but
whitespace may follow the object. -/
def decodeSingleIntField (body : Bytes) : Option (Bytes × Int) :=
  match skipSpace body with
  | 123 :: afterBrace =>
    match skipSpace afterBrace with
    | 34 :: afterQuote =>
      match readKey afterQuote with
      | some (key, afterKey) =>
        match skipSpace afterKey with
        | 58 :: afterColon =>
          match readInt (skipSpace afterColon) with
          | some (v, afterValue) =>
            match skipSpace afterValue with
            | 125 :: afterObject => if skipSpace afterObject = [] then some (key, v) else none
            | _ => none
          | none => none
        | _ => none
      | none => none
    | _ => none
  | _ => none

/-! ## The handlers -/

/-- The header that carries the account name. -/
def usernameHeader : String := "x-iot-edge-username"

/-- The header that carries the password. -/
def passwordHeader : String := "x-iot-edge-password"

/-- The error of `errors.Errorf("Account (%s) unauthorized", account)`. -/
def unauthorizedError (account : String) : GoError :=
  GoError.errorf ("Account (" ++ account ++ ") unauthorized")

/-- Handler `Server.startModule` (PUT /modules/{name}/start). -/
def startModule {σ : Type} (s : Server σ) (u : Utils σ) (params : Params)
    (headers : Headers) (reqBody : Option Bytes) (w : σ) : Outcome σ :=
  let auth := s.engine.Authenticate (headers.Get usernameHeader) (headers.Get passwordHeader) w
  let called := [Event.authenticate (headers.Get usernameHeader) (headers.Get passwordHeader)]
  if !auth.1 then
    let account := headers.Get usernameHeader
    { body := none
      err := some (unauthorizedError account)
      world := auth.2
      trace := called ++ [Event.log ⟨Level.error, none,
        "Unauthorized to start module (" ++ params.index "name" ++ ") by account (" ++ account ++ ")"⟩] }
  else
    match reqBody with
    | none =>
      { body := none, err := some (GoError.errorf "Request body missing"),
        world := auth.2, trace := called }
    | some data =>
      match u.UnmarshalJSON data with
      | Except.error e =>
        { body := none, err := some (GoError.trace e), world := auth.2, trace := called }
      | Except.ok m =>
        let started := s.engine.Start m auth.2
        match started.1 with
        | some e =>
          { body := none
            err := some (GoError.trace e)
            world := started.2
            trace := called ++ [Event.start m, Event.log ⟨Level.error, some e,
              "Failed to start module (" ++ m.Name ++ ")"⟩] }
        | none =>
          { body := none, err := none, world := started.2, trace := called ++ [Event.start m] }

/-- Handler `Server.stopModule` (PUT /modules/{name}/stop). -/
def stopModule {σ : Type} (s : Server σ) (_u : Utils σ) (params : Params)
    (headers : Headers) (_reqBody : Option Bytes) (w : σ) : Outcome σ :=
  let auth := s.engine.Authenticate (headers.Get usernameHeader) (headers.Get passwordHeader) w
  let called := [Event.authenticate (headers.Get usernameHeader) (headers.Get passwordHeader)]
  if !auth.1 then
    let account := headers.Get usernameHeader
    { body := none
      err := some (unauthorizedError account)
      world := auth.2
      trace := called ++ [Event.log ⟨Level.error, none,
        "Unauthorized to stop module (" ++ params.index "name" ++ ") by account (" ++ account ++ ")"⟩] }
  else
    let stopped := s.engine.Stop (params.index "name") auth.2
    match stopped.1 with
    | some e =>
      { body := none
        err := some (GoError.trace e)
        world := stopped.2
        trace := called ++ [Event.stop (params.index "name"), Event.log ⟨Level.error, some e,
          "Failed to stop module (" ++ params.index "name" ++ ")"⟩] }
    | none =>
      { body := none, err := none, world := stopped.2,
        trace := called ++ [Event.stop (params.index "name")] }

/-- Handler `Server.getPort` (GET /ports/available/host/{host}). -/
def getPort {σ : Type} (s : Server σ) (u : Utils σ) (params : Params)
    (headers : Headers) (_reqBody : Option Bytes) (w : σ) : Outcome σ :=
  let auth := s.engine.Authenticate (headers.Get usernameHeader) (headers.Get passwordHeader) w
  let called := [Event.authenticate (headers.Get usernameHeader) (headers.Get passwordHeader)]
  if !auth.1 then
    let account := headers.Get usernameHeader
    { body := none
      err := some (unauthorizedError account)
      world := auth.2
      trace := called ++ [Event.log ⟨Level.error, none,
        "Unauthorized to get port by account (" ++ account ++ ")"⟩] }
  else
    let host := match params.get? "host" with
      | some h => h
      | none => "127.0.0.1"
    let got := u.GetPortAvailable host auth.2
    match got.1.2 with
    | some e =>
      { body := none, err := some (GoError.trace e), world := got.2,
        trace := called ++ [Event.getPortAvailable host] }
    | none =>
      let encoded := marshalPortMap got.1.1
      match encoded.2 with
      | some e =>
        { body := none, err := some (GoError.trace e), world := got.2,
          trace := called ++ [Event.getPortAvailable host] }
      | none =>
        { body := some encoded.1, err := none, world := got.2,
          trace := called ++ [Event.getPortAvailable host] }

/-! ## Observations on a trace -/

/-- The module specifications `Engine.Start` was called with, in order. -/
def startCalls : List Event → List Module
  | [] => []
  | Event.start m :: es => m :: startCalls es
  | _ :: es => startCalls es

/-- The module names `Engine.Stop` was called with, in order. -/
def stopCalls : List Event → List String
  | [] => []
  | Event.stop n :: es => n :: stopCalls es
  | _ :: es => stopCalls es

/-- The hosts `utils.GetPortAvailable` was called with, in order. -/
def portCalls : List Event → List String
  | [] => []
  | Event.getPortAvailable h :: es => h :: portCalls es
  | _ :: es => portCalls es

/-- The records handed to the logger, in order. -/
def logRecords : List Event → List LogRecord
  | [] => []
  | Event.log r :: es => r :: logRecords es
  | _ :: es => logRecords es

/-! ## A concrete engine for evaluation

The world counts the calls that reached it. The account `admin` with password
`secret` is accepted; module `bad` fails to start and to stop; host `nohost`
has no free port; every other host gets port 8080, host `192.168.1.5` gets 9000. -/

/-- An engine over a call counter. -/
def demoEngine : Engine Nat where
  Start := fun m w => (if m.Name = "bad" then some (GoError.foreign "start failed") else none, w + 1)
  Stop := fun n w => (if n = "bad" then some (GoError.foreign "stop failed") else none, w + 1)
  Authenticate := fun username password w => (username = "admin" && password = "secret", w + 1)

/-- A decoder that reads a one-byte body as a module: `[1]` is module `foo`,
`[2]` is module `bad`, anything else is malformed. -/
def demoUtils : Utils Nat where
  UnmarshalJSON := fun data =>
    if data = [1] then Except.ok ⟨"foo", []⟩
    else if data = [2] then Except.ok ⟨"bad", []⟩
    else Except.error (GoError.foreign "invalid character")
  GetPortAvailable := fun host w =>
    if host = "nohost" then ((0, some (GoError.foreign "no such host")), w + 1)
    else if host = "192.168.1.5" then ((9000, none), w + 1)
    else ((8080, none), w + 1)

/-- The server around `demoEngine`. -/
def demoServer : Server Nat := ⟨demoEngine⟩

/-- Headers that carry the given account and password. -/
def credentials (username password : String) : Headers where
  Get := fun key =>
    if key = "x-iot-edge-username" then username
    else if key = "x-iot-edge-password" then password
    else ""

/-! ## Shared facts about the handlers -/

/-- A rejected `startModule` run, written out. -/
theorem startModule_rejected {σ : Type} (s : Server σ) (u : Utils σ) (params : Params)
    (headers : Headers) (reqBody : Option Bytes) (w : σ)
    (h : (s.engine.Authenticate (headers.Get usernameHeader) (headers.Get passwordHeader) w).1 = false) :
    startModule s u params headers reqBody w =
      { body := none
        err := some (unauthorizedError (headers.Get usernameHeader))
        world := (s.engine.Authenticate (headers.Get usernameHeader) (headers.Get passwordHeader) w).2
        trace := [Event.authenticate (headers.Get usernameHeader) (headers.Get passwordHeader),
          Event.log ⟨Level.error, none, "Unauthorized to start module (" ++ params.index "name"
            ++ ") by account (" ++ headers.Get usernameHeader ++ ")"⟩] } := by
  simp [startModule, h]

/-- A rejected `stopModule` run, written out. -/
theorem stopModule_rejected {σ : Type} (s : Server σ) (u : Utils σ) (params : Params)
    (headers : Headers) (reqBody : Option Bytes) (w : σ)
    (h : (s.engine.Authenticate (headers.Get usernameHeader) (headers.Get passwordHeader) w).1 = false) :
    stopModule s u params headers reqBody w =
      { body := none
        err := some (unauthorizedError (headers.Get usernameHeader))
        world := (s.engine.Authenticate (headers.Get usernameHeader) (headers.Get passwordHeader) w).2
        trace := [Event.authenticate (headers.Get usernameHeader) (headers.Get passwordHeader),
          Event.log ⟨Level.error, none, "Unauthorized to stop module (" ++ params.index "name"
            ++ ") by account (" ++ headers.Get usernameHeader ++ ")"⟩] } := by
  simp [stopModule, h]

/-- A rejected `getPort` run, written out. -/
theorem getPort_rejected {σ : Type} (s : Server σ) (u : Utils σ) (params : Params)
    (headers : Headers) (reqBody : Option Bytes) (w : σ)
    (h : (s.engine.Authenticate (headers.Get usernameHeader) (headers.Get passwordHeader) w).1 = false) :
    getPort s u params headers reqBody w =
      { body := none
        err := some (unauthorizedError (headers.Get usernameHeader))
        world := (s.engine.Authenticate (headers.Get usernameHeader) (headers.Get passwordHeader) w).2
        trace := [Event.authenticate (headers.Get usernameHeader) (headers.Get passwordHeader),
          Event.log ⟨Level.error, none, "Unauthorized to get port by account ("
            ++ headers.Get usernameHeader ++ ")"⟩] } := by
  simp [getPort, h]

/-- An accepted `startModule` run without a body, written out. -/
theorem startModule_accepted_no_body {σ : Type} (s : Server σ) (u : Utils σ) (params : Params)
    (headers : Headers) (w : σ)
    (h : (s.engine.Authenticate (headers.Get usernameHeader) (headers.Get passwordHeader) w).1 = true) :
    startModule s u params headers none w =
      { body := none
        err := some (GoError.errorf "Request body missing")
        world := (s.engine.Authenticate (headers.Get usernameHeader) (headers.Get passwordHeader) w).2
        trace := [Event.authenticate (headers.Get usernameHeader) (headers.Get passwordHeader)] } := by
  simp [startModule, h]

/-- An accepted `startModule` run whose body does not decode, written out. -/
theorem startModule_accepted_undecodable {σ : Type} (s : Server σ) (u : Utils σ) (params : Params)
    (headers : Headers) (data : Bytes) (e : GoError) (w : σ)
    (h : (s.engine.Authenticate (headers.Get usernameHeader) (headers.Get passwordHeader) w).1 = true)
    (hd : u.UnmarshalJSON data = Except.error e) :
    startModule s u params headers (some data) w =
      { body := none
        err := some (GoError.trace e)
        world := (s.engine.Authenticate (headers.Get usernameHeader) (headers.Get passwordHeader) w).2
        trace := [Event.authenticate (headers.Get usernameHeader) (headers.Get passwordHeader)] } := by
  simp [startModule, h, hd]

/-- The host `getPort` hands to the allocator, as one expression. -/
theorem getPort_host_eq (params : Params) :
    (match params.get? "host" with
      | some h => h
      | none => "127.0.0.1") = (params.get? "host").getD "127.0.0.1" := by
  cases params.get? "host" <;> rfl

/-- An accepted `getPort` run calls the allocator once, after `Authenticate`. -/
theorem getPort_accepted_trace {σ : Type} (s : Server σ) (u : Utils σ) (params : Params)
    (headers : Headers) (reqBody : Option Bytes) (w : σ)
    (h : (s.engine.Authenticate (headers.Get usernameHeader) (headers.Get passwordHeader) w).1 = true) :
    (getPort s u params headers reqBody w).trace =
      [Event.authenticate (headers.Get usernameHeader) (headers.Get passwordHeader),
        Event.getPortAvailable ((params.get? "host").getD "127.0.0.1")] := by
  simp only [getPort, h, getPort_host_eq, marshalPortMap]
  cases (u.GetPortAvailable ((params.get? "host").getD "127.0.0.1")
    (s.engine.Authenticate (headers.Get usernameHeader) (headers.Get passwordHeader) w).2).1.2 <;> simp

/-- An accepted `getPort` run on which the allocator returns port `p` and no error. -/
theorem getPort_accepted_ok {σ : Type} (s : Server σ) (u : Utils σ) (params : Params)
    (headers : Headers) (reqBody : Option Bytes) (w : σ) (p : Int)
    (h : (s.engine.Authenticate (headers.Get usernameHeader) (headers.Get passwordHeader) w).1 = true)
    (hp : (u.GetPortAvailable ((params.get? "host").getD "127.0.0.1")
      (s.engine.Authenticate (headers.Get usernameHeader) (headers.Get passwordHeader) w).2).1 = (p, none)) :
    (getPort s u params headers reqBody w).body = some (marshalPortMap p).1
    ∧ (getPort s u params headers reqBody w).err = none := by
  simp [getPort, h, getPort_host_eq, marshalPortMap, hp]

/-- An accepted `getPort` run on which the allocator returns the error `e`. -/
theorem getPort_accepted_error {σ : Type} (s : Server σ) (u : Utils σ) (params : Params)
    (headers : Headers) (reqBody : Option Bytes) (w : σ) (e : GoError)
    (h : (s.engine.Authenticate (headers.Get usernameHeader) (headers.Get passwordHeader) w).1 = true)
    (hp : (u.GetPortAvailable ((params.get? "host").getD "127.0.0.1")
      (s.engine.Authenticate (headers.Get usernameHeader) (headers.Get passwordHeader) w).2).1.2 = some e) :
    (getPort s u params headers reqBody w).body = none
    ∧ (getPort s u params headers reqBody w).err = some (GoError.trace e)
    ∧ logRecords (getPort s u params headers reqBody w).trace = [] := by
  simp [getPort, h, getPort_host_eq, hp, logRecords]

/-- An accepted `stopModule` run, written out. -/
theorem stopModule_accepted {σ : Type} (s : Server σ) (u : Utils σ) (params : Params)
    (headers : Headers) (reqBody : Option Bytes) (w : σ)
    (h : (s.engine.Authenticate (headers.Get usernameHeader) (headers.Get passwordHeader) w).1 = true) :
    stopModule s u params headers reqBody w =
      { body := none
        err := (s.engine.Stop (params.index "name")
          (s.engine.Authenticate (headers.Get usernameHeader) (headers.Get passwordHeader) w).2).1.map
            GoError.trace
        world := (s.engine.Stop (params.index "name")
          (s.engine.Authenticate (headers.Get usernameHeader) (headers.Get passwordHeader) w).2).2
        trace := [Event.authenticate (headers.Get usernameHeader) (headers.Get passwordHeader),
            Event.stop (params.index "name")]
          ++ (match (s.engine.Stop (params.index "name")
              (s.engine.Authenticate (headers.Get usernameHeader) (headers.Get passwordHeader) w).2).1 with
            | some e => [Event.log ⟨Level.error, some e,
                "Failed to stop module (" ++ params.index "name" ++ ")"⟩]
            | none => []) } := by
  simp only [stopModule, h]
  cases (s.engine.Stop (params.index "name")
    (s.engine.Authenticate (headers.Get usernameHeader) (headers.Get passwordHeader) w).2).1 <;> simp

/-- An accepted `startModule` run whose body decodes to `m`, written out. -/
theorem startModule_accepted_decoded {σ : Type} (s : Server σ) (u : Utils σ) (params : Params)
    (headers : Headers) (data : Bytes) (m : Module) (w : σ)
    (h : (s.engine.Authenticate (headers.Get usernameHeader) (headers.Get passwordHeader) w).1 = true)
    (hd : u.UnmarshalJSON data = Except.ok m) :
    startModule s u params headers (some data) w =
      { body := none
        err := (s.engine.Start m
          (s.engine.Authenticate (headers.Get usernameHeader) (headers.Get passwordHeader) w).2).1.map
            GoError.trace
        world := (s.engine.Start m
          (s.engine.Authenticate (headers.Get usernameHeader) (headers.Get passwordHeader) w).2).2
        trace := [Event.authenticate (headers.Get usernameHeader) (headers.Get passwordHeader),
            Event.start m]
          ++ (match (s.engine.Start m
              (s.engine.Authenticate (headers.Get usernameHeader) (headers.Get passwordHeader) w).2).1 with
            | some e => [Event.log ⟨Level.error, some e,
                "Failed to start module (" ++ m.Name ++ ")"⟩]
            | none => []) } := by
  simp only [startModule, h, hd]
  cases (s.engine.Start m
    (s.engine.Authenticate (headers.Get usernameHeader) (headers.Get passwordHeader) w).2).1 <;> simp

/-- The results and log records of an accepted `getPort` run, in terms of what
the allocator returned. -/
theorem getPort_accepted_result {σ : Type} (s : Server σ) (u : Utils σ) (params : Params)
    (headers : Headers) (reqBody : Option Bytes) (w : σ)
    (h : (s.engine.Authenticate (headers.Get usernameHeader) (headers.Get passwordHeader) w).1 = true) :
    (getPort s u params headers reqBody w).body =
      (match (u.GetPortAvailable ((params.get? "host").getD "127.0.0.1")
          (s.engine.Authenticate (headers.Get usernameHeader) (headers.Get passwordHeader) w).2).1.2 with
        | some _ => none
        | none => some (marshalPortMap (u.GetPortAvailable ((params.get? "host").getD "127.0.0.1")
            (s.engine.Authenticate (headers.Get usernameHeader)
              (headers.Get passwordHeader) w).2).1.1).1)
    ∧ (getPort s u params headers reqBody w).err =
      (u.GetPortAvailable ((params.get? "host").getD "127.0.0.1")
        (s.engine.Authenticate (headers.Get usernameHeader) (headers.Get passwordHeader) w).2).1.2.map
          GoError.trace
    ∧ logRecords (getPort s u params headers reqBody w).trace = [] := by
  simp only [getPort, h, getPort_host_eq, marshalPortMap]
  cases (u.GetPortAvailable ((params.get? "host").getD "127.0.0.1")
    (s.engine.Authenticate (headers.Get usernameHeader) (headers.Get passwordHeader) w).2).1.2 <;>
    simp [logRecords]

/-- The world an accepted `getPort` run leaves is the one the allocator left. -/
theorem getPort_accepted_world {σ : Type} (s : Server σ) (u : Utils σ) (params : Params)
    (headers : Headers) (reqBody : Option Bytes) (w : σ)
    (h : (s.engine.Authenticate (headers.Get usernameHeader) (headers.Get passwordHeader) w).1 = true) :
    (getPort s u params headers reqBody w).world =
      (u.GetPortAvailable ((params.get? "host").getD "127.0.0.1")
        (s.engine.Authenticate (headers.Get usernameHeader) (headers.Get passwordHeader) w).2).2 := by
  simp only [getPort, h, getPort_host_eq, marshalPortMap]
  cases (u.GetPortAvailable ((params.get? "host").getD "127.0.0.1")
    (s.engine.Authenticate (headers.Get usernameHeader) (headers.Get passwordHeader) w).2).1.2 <;> simp

/-! ## The port object round trip -/

/-- The digits are pushed in front of the accumulator, which is left as it is. -/
theorem appendDecimal_append (fuel : Nat) : ∀ (n : Nat) (acc : Bytes),
    appendDecimal fuel n acc = appendDecimal fuel n [] ++ acc := by
  induction fuel with
  | zero => intro n acc; simp [appendDecimal]
  | succ fuel ih =>
    intro n acc
    by_cases hn : n < 10
    · simp [appendDecimal, hn]
    · simp only [appendDecimal, hn, if_false]
      rw [ih (n / 10) ((48 + n % 10) :: acc), ih (n / 10) [48 + n % 10]]
      simp

/-- Reading back the digits of `n` shifts the running number and adds `n`. -/
theorem readDigits_appendDecimal (fuel : Nat) : ∀ (n : Nat), n < fuel → ∀ (acc : Bytes) (a : Nat),
    ∃ k, readDigits (appendDecimal fuel n acc) a = readDigits acc (a * 10 ^ k + n) := by
  induction fuel with
  | zero => intro n hn; omega
  | succ fuel ih =>
    intro n hn acc a
    by_cases h10 : n < 10
    · refine ⟨1, ?_⟩
      have h1 : 48 + n ≤ 57 := by omega
      simp [appendDecimal, h10, readDigits, h1]
    · have hlt : n / 10 < fuel := by omega
      obtain ⟨k, hk⟩ := ih (n / 10) hlt ((48 + n % 10) :: acc) a
      refine ⟨k + 1, ?_⟩
      simp only [appendDecimal, h10, if_false]
      rw [hk]
      have h1 : 48 + n % 10 ≤ 57 := by omega
      have h2 : (a * 10 ^ k + n / 10) * 10 + n % 10 = a * 10 ^ (k + 1) + n := by
        rw [pow_succ]
        have := Nat.div_add_mod n 10
        nlinarith
      simp [readDigits, h1, h2]

/-- With enough fuel the text of a positive number starts with a digit from
`1` to `9`: there is no leading zero. -/
theorem appendDecimal_head_pos (fuel : Nat) : ∀ (n : Nat), 0 < n → n < fuel → ∀ (acc : Bytes),
    ∃ d ds, appendDecimal fuel n acc = d :: ds ∧ 49 ≤ d ∧ d ≤ 57 := by
  induction fuel with
  | zero => intro n _ hn; omega
  | succ fuel ih =>
    intro n hpos hn acc
    by_cases h10 : n < 10
    · exact ⟨48 + n, acc, by simp [appendDecimal, h10], by omega, by omega⟩
    · have hlt : n / 10 < fuel := by omega
      have hq : 0 < n / 10 := by omega
      simpa [appendDecimal, h10] using ih (n / 10) hq hlt ((48 + n % 10) :: acc)

/-- Reading the text of `n` from zero gives `n` and goes on with what follows. -/
theorem readDigits_formatNat (n : Nat) (rest : Bytes) :
    readDigits (formatNat n ++ rest) 0 = readDigits rest n := by
  unfold formatNat
  rw [← appendDecimal_append]
  obtain ⟨k, hk⟩ := readDigits_appendDecimal (n + 1) n (by omega) rest 0
  simpa using hk

/-- The text of a positive number starts with a digit from `1` to `9`. -/
theorem formatNat_head_pos (n : Nat) (hpos : 0 < n) :
    ∃ d ds, formatNat n = d :: ds ∧ 49 ≤ d ∧ d ≤ 57 :=
  appendDecimal_head_pos (n + 1) n hpos (by omega) []

/-- The text of zero is the single digit `0`. -/
theorem formatNat_zero : formatNat 0 = [48] := by
  simp [formatNat, appendDecimal]

/-- The text of a natural number, followed by the closing brace, reads back as
the number and leaves the brace. -/
theorem readNat_formatNat (n : Nat) : readNat (formatNat n ++ [125]) = some (n, [125]) := by
  rcases Nat.eq_zero_or_pos n with h0 | hpos
  · subst h0
    simp [formatNat_zero, readNat]
  · obtain ⟨d, ds, hd, h1, h2⟩ := formatNat_head_pos n hpos
    have hr := readDigits_formatNat n [125]
    rw [hd] at hr ⊢
    simp only [List.cons_append] at hr ⊢
    have h48 : 48 ≤ d := by omega
    have hne : d ≠ 48 := by omega
    have hr2 : readDigits (ds ++ [125]) (d - 48) = (n, [125]) := by
      simpa [readDigits, h48, h2] using hr
    simp [readNat, hne, h1, h2, hr2]

/-- The text of an integer starts with `-` or with a digit. -/
theorem formatInt_head (p : Int) :
    ∃ d ds, formatInt p = d :: ds ∧ (d = 45 ∨ (48 ≤ d ∧ d ≤ 57)) := by
  cases p with
  | ofNat n =>
    rcases Nat.eq_zero_or_pos n with h0 | hpos
    · subst h0
      exact ⟨48, [], by simp [formatInt, formatNat_zero], Or.inr ⟨by omega, by omega⟩⟩
    · obtain ⟨d, ds, hd, h1, h2⟩ := formatNat_head_pos n hpos
      exact ⟨d, ds, by simp [formatInt, hd], Or.inr ⟨by omega, h2⟩⟩
  | negSucc n => exact ⟨45, formatNat (n + 1), by simp [formatInt], Or.inl rfl⟩

/-- The text of a 64-bit integer, followed by the closing brace, reads back as
the integer and leaves the brace. -/
theorem readInt_formatInt (p : Int) (hlo : -9223372036854775808 ≤ p)
    (hhi : p < 9223372036854775808) :
    readInt (formatInt p ++ [125]) = some (p, [125]) := by
  cases p with
  | ofNat n =>
    have hn : n < 9223372036854775808 := by
      have : ((n : Nat) : Int) < 9223372036854775808 := hhi
      omega
    rcases Nat.eq_zero_or_pos n with h0 | hpos
    · subst h0
      simp [formatInt, formatNat_zero, readInt, readNat]
    · obtain ⟨d, ds, hd, h1, h2⟩ := formatNat_head_pos n hpos
      have hr := readNat_formatNat n
      simp only [formatInt]
      rw [hd] at hr ⊢
      have h45 : d ≠ 45 := by omega
      simp only [List.cons_append] at hr ⊢
      simp [readInt, h45, hr, hn]
  | negSucc n =>
    have hn : n + 1 ≤ 9223372036854775808 := by
      have : -9223372036854775808 ≤ Int.negSucc n := hlo
      rw [Int.negSucc_eq] at this
      omega
    have hr := readNat_formatNat (n + 1)
    simp only [formatInt, List.cons_append]
    simp [readInt, hr, hn, Int.negSucc_eq]

/-- Decoding the marshalled port object gives the key `port` and the port. -/
theorem decode_marshalPortMap (p : Int) (hlo : -9223372036854775808 ≤ p)
    (hhi : p < 9223372036854775808) :
    decodeSingleIntField (marshalPortMap p).1 = some (ascii "port", p) := by
  have h1 : ascii "\x7b\"port\":" = [123, 34, 112, 111, 114, 116, 34, 58] := by decide
  have h2 : ascii "\x7d" = [125] := by decide
  have h3 : ascii "port" = [112, 111, 114, 116] := by decide
  obtain ⟨d, ds, hd, hhead⟩ := formatInt_head p
  have hskip : skipSpace (formatInt p ++ [125]) = formatInt p ++ [125] := by
    rw [hd]
    rcases hhead with h45 | ⟨h48, h57⟩
    · subst h45
      simp [skipSpace]
    · have a1 : d ≠ 32 := by omega
      have a2 : d ≠ 9 := by omega
      have a3 : d ≠ 10 := by omega
      have a4 : d ≠ 13 := by omega
      simp [skipSpace, a1, a2, a3, a4]
  simp only [marshalPortMap, h1, h2, h3, List.cons_append, List.nil_append]
  simp [decodeSingleIntField, skipSpace, readKey, hskip, readInt_formatInt p hlo hhi]

/-- The reader on sample texts: it follows the JSON number grammar (no leading
zero, no fraction), allows whitespace between tokens, checks the 64-bit range
and refuses anything after the object. -/
theorem decodeSingleIntField_samples :
    decodeSingleIntField (ascii "\x7b\"port\":8080\x7d") = some (ascii "port", 8080)
    ∧ decodeSingleIntField (ascii " \x7b \"port\" : 8080 \x7d ") = some (ascii "port", 8080)
    ∧ decodeSingleIntField (ascii "\x7b\"port\":0\x7d") = some (ascii "port", 0)
    ∧ decodeSingleIntField (ascii "\x7b\"port\":-12\x7d") = some (ascii "port", -12)
    ∧ decodeSingleIntField (ascii "\x7b\"port\":007\x7d") = none
    ∧ decodeSingleIntField (ascii "\x7b\"port\":-007\x7d") = none
    ∧ decodeSingleIntField (ascii "\x7b\"port\":0443\x7d") = none
    ∧ decodeSingleIntField (ascii "\x7b\"port\":1.5\x7d") = none
    ∧ decodeSingleIntField (ascii "\x7b\"port\":-\x7d") = none
    ∧ decodeSingleIntField (ascii "\x7b\"port\":8080\x7dx") = none
    ∧ decodeSingleIntField (ascii "\x7b\"port\":9223372036854775807\x7d")
        = some (ascii "port", 9223372036854775807)
    ∧ decodeSingleIntField (ascii "\x7b\"port\":9223372036854775808\x7d") = none
    ∧ decodeSingleIntField (ascii "\x7b\"port\":-9223372036854775808\x7d")
        = some (ascii "port", -9223372036854775808)
    ∧ decodeSingleIntField (ascii "\x7b\"port\":-9223372036854775809\x7d") = none := by
  refine ⟨?_, ?_, ?_, ?_, ?_, ?_, ?_, ?_, ?_, ?_, ?_, ?_, ?_, ?_⟩ <;> decide

/-- The byte of a decimal digit character. -/
theorem digitChar_toNat (d : Nat) (hd : d < 10) : (Nat.digitChar d).toNat = 48 + d := by
  interval_cases d <;> rfl

/-- The digit text of the model is the digit text of `Nat.toDigits`. -/
theorem toDigitsCore_map_toNat (fuel : Nat) : ∀ (n : Nat) (ds : List Char),
    (Nat.toDigitsCore 10 fuel n ds).map Char.toNat = appendDecimal fuel n (ds.map Char.toNat) := by
  induction fuel with
  | zero => intro n ds; simp [Nat.toDigitsCore, appendDecimal]
  | succ fuel ih =>
    intro n ds
    have hmod : (Nat.digitChar (n % 10)).toNat = 48 + n % 10 :=
      digitChar_toNat (n % 10) (Nat.mod_lt n (by omega))
    by_cases h10 : n < 10
    · have hq : n / 10 = 0 := by omega
      have hm : n % 10 = n := by omega
      simp [Nat.toDigitsCore, appendDecimal, h10, hq, digitChar_toNat n h10, hm]
    · have hq : ¬ n / 10 = 0 := by omega
      simp only [Nat.toDigitsCore, appendDecimal, h10, hq, if_false]
      rw [ih]
      simp [hmod]

/-- The text of a natural number is the bytes of its `toString`. -/
theorem formatNat_eq_toString (n : Nat) : formatNat n = ascii (toString n) := by
  have h := toDigitsCore_map_toNat (n + 1) n []
  simp only [List.map_nil] at h
  unfold formatNat
  rw [← h]
  rfl

/-- The text of an integer is the bytes of its `toString`. -/
theorem formatInt_eq_toString (p : Int) : formatInt p = ascii (toString p) := by
  cases p with
  | ofNat n => exact formatNat_eq_toString n
  | negSucc n =>
    have h := formatNat_eq_toString (n + 1)
    simp only [formatInt, h]
    rfl

/-- The bytes of a concatenation. -/
theorem ascii_append (a b : String) : ascii (a ++ b) = ascii a ++ ascii b := by
  simp [ascii, String.toList]

/-! ## The claims -/

/-- C1: when `Engine.Authenticate`, applied to the values of the headers
`x-iot-edge-username` and `x-iot-edge-password`, returns false, each of the
three handlers returns the error `Account (<username>) unauthorized` and no
body, and its trace holds no call of `Engine.Start`, `Engine.Stop` or
`GetPortAvailable`; the world is the one `Authenticate` left. -/
theorem unauthorized_returns_error_without_calls {σ : Type} (s : Server σ) (u : Utils σ)
    (params : Params) (headers : Headers) (reqBody : Option Bytes) (w : σ)
    (h : (s.engine.Authenticate (headers.Get "x-iot-edge-username")
      (headers.Get "x-iot-edge-password") w).1 = false) :
    ∀ r ∈ [startModule s u params headers reqBody w, stopModule s u params headers reqBody w,
        getPort s u params headers reqBody w],
      r.err = some (GoError.errorf ("Account (" ++ headers.Get "x-iot-edge-username" ++ ") unauthorized"))
      ∧ r.err.map GoError.message = some ("Account (" ++ headers.Get "x-iot-edge-username" ++ ") unauthorized")
      ∧ r.body = none
      ∧ startCalls r.trace = [] ∧ stopCalls r.trace = [] ∧ portCalls r.trace = []
      ∧ r.world = (s.engine.Authenticate (headers.Get "x-iot-edge-username")
          (headers.Get "x-iot-edge-password") w).2 := by
  have h1 := startModule_rejected s u params headers reqBody w h
  have h2 := stopModule_rejected s u params headers reqBody w h
  have h3 := getPort_rejected s u params headers reqBody w h
  intro r hr
  simp only [List.mem_cons, List.mem_singleton, List.not_mem_nil, or_false] at hr
  rcases hr with rfl | rfl | rfl
  · rw [h1]
    simp [unauthorizedError, GoError.message, startCalls, stopCalls, portCalls, usernameHeader,
      passwordHeader]
  · rw [h2]
    simp [unauthorizedError, GoError.message, startCalls, stopCalls, portCalls, usernameHeader,
      passwordHeader]
  · rw [h3]
    simp [unauthorizedError, GoError.message, startCalls, stopCalls, portCalls, usernameHeader,
      passwordHeader]

/-- C1 at the account `admin` with a wrong password, path name `foo`, body `[1]`. -/
theorem unauthorized_returns_error_without_calls_witness :
    (demoServer.engine.Authenticate ((credentials "admin" "wrong").Get "x-iot-edge-username")
      ((credentials "admin" "wrong").Get "x-iot-edge-password") 0).1 = false
    ∧ ∀ r ∈ [startModule demoServer demoUtils [("name", "foo")] (credentials "admin" "wrong") (some [1]) 0,
        stopModule demoServer demoUtils [("name", "foo")] (credentials "admin" "wrong") (some [1]) 0,
        getPort demoServer demoUtils [("name", "foo")] (credentials "admin" "wrong") (some [1]) 0],
      r.err = some (GoError.errorf ("Account ("
        ++ (credentials "admin" "wrong").Get "x-iot-edge-username" ++ ") unauthorized"))
      ∧ r.err.map GoError.message = some ("Account ("
        ++ (credentials "admin" "wrong").Get "x-iot-edge-username" ++ ") unauthorized")
      ∧ r.body = none
      ∧ startCalls r.trace = [] ∧ stopCalls r.trace = [] ∧ portCalls r.trace = []
      ∧ r.world = (demoServer.engine.Authenticate
          ((credentials "admin" "wrong").Get "x-iot-edge-username")
          ((credentials "admin" "wrong").Get "x-iot-edge-password") 0).2 :=
  ⟨by decide, unauthorized_returns_error_without_calls demoServer demoUtils [("name", "foo")]
    (credentials "admin" "wrong") (some [1]) 0 (by decide)⟩

/-- C2 as stated fails: with a rejected password and no body, `startModule`
returns the unauthorized error, not `Request body missing`. -/
theorem absent_body_unauthorized_counterexample :
    (demoServer.engine.Authenticate ((credentials "admin" "wrong").Get "x-iot-edge-username")
      ((credentials "admin" "wrong").Get "x-iot-edge-password") 0).1 = false
    ∧ (startModule demoServer demoUtils [("name", "foo")] (credentials "admin" "wrong") none 0).err
      = some (GoError.errorf "Account (admin) unauthorized")
    ∧ (startModule demoServer demoUtils [("name", "foo")] (credentials "admin" "wrong") none 0).err
      ≠ some (GoError.errorf "Request body missing") := by
  decide

/-- C2, amended: when the request body is absent, `startModule` never calls
`Engine.Start`, whatever `Engine.Authenticate` answers; when the credentials
are accepted it returns the error `Request body missing` and no body. The
world it leaves is the one `Authenticate` left: no other collaborator ran. -/
theorem startModule_absent_body {σ : Type} (s : Server σ) (u : Utils σ)
    (params : Params) (headers : Headers) (w : σ) :
    startCalls (startModule s u params headers none w).trace = []
    ∧ ((s.engine.Authenticate (headers.Get "x-iot-edge-username")
          (headers.Get "x-iot-edge-password") w).1 = true →
        (startModule s u params headers none w).err = some (GoError.errorf "Request body missing")
        ∧ (startModule s u params headers none w).body = none)
    ∧ (startModule s u params headers none w).world =
        (s.engine.Authenticate (headers.Get "x-iot-edge-username")
          (headers.Get "x-iot-edge-password") w).2 := by
  cases h : (s.engine.Authenticate (headers.Get usernameHeader) (headers.Get passwordHeader) w).1
  · have h1 := startModule_rejected s u params headers none w h
    simp only [usernameHeader, passwordHeader] at h h1
    simp [h1, h, startCalls]
  · have h1 := startModule_accepted_no_body s u params headers w h
    simp only [usernameHeader, passwordHeader] at h h1
    simp [h1, startCalls]

/-- C2 amended, at the accepted account `admin`/`secret` with no body: the
world counts the one call of `Authenticate`. -/
theorem startModule_absent_body_witness :
    (demoServer.engine.Authenticate ((credentials "admin" "secret").Get "x-iot-edge-username")
      ((credentials "admin" "secret").Get "x-iot-edge-password") 0).1 = true
    ∧ ((startModule demoServer demoUtils [("name", "foo")] (credentials "admin" "secret") none 0).err
        = some (GoError.errorf "Request body missing")
      ∧ (startModule demoServer demoUtils [("name", "foo")] (credentials "admin" "secret") none 0).body
        = none)
    ∧ (startModule demoServer demoUtils [("name", "foo")] (credentials "admin" "secret") none 0).world
      = 1 :=
  ⟨by decide, (startModule_absent_body demoServer demoUtils [("name", "foo")]
    (credentials "admin" "secret") 0).2.1 (by decide),
   (startModule_absent_body demoServer demoUtils [("name", "foo")]
    (credentials "admin" "secret") 0).2.2⟩

/-- C3: with accepted credentials and a present body on which decoding fails
with error `e`, `startModule` returns the error `errors.Trace(e)`, whose
message and cause are those of `e`, returns no body, and never calls
`Engine.Start`: its trace holds no such call and the world it leaves is the one
`Authenticate` left. -/
theorem startModule_decode_failure {σ : Type} (s : Server σ) (u : Utils σ)
    (params : Params) (headers : Headers) (data : Bytes) (e : GoError) (w : σ)
    (h : (s.engine.Authenticate (headers.Get "x-iot-edge-username")
      (headers.Get "x-iot-edge-password") w).1 = true)
    (hd : u.UnmarshalJSON data = Except.error e) :
    (startModule s u params headers (some data) w).err = some (GoError.trace e)
    ∧ (startModule s u params headers (some data) w).err.map GoError.message = some e.message
    ∧ (startModule s u params headers (some data) w).err.map GoError.cause = some e.cause
    ∧ (startModule s u params headers (some data) w).body = none
    ∧ startCalls (startModule s u params headers (some data) w).trace = []
    ∧ (startModule s u params headers (some data) w).world =
        (s.engine.Authenticate (headers.Get "x-iot-edge-username")
          (headers.Get "x-iot-edge-password") w).2 := by
  have h1 := startModule_accepted_undecodable s u params headers data e w h hd
  simp only [usernameHeader, passwordHeader] at h1
  simp [h1, GoError.message, GoError.cause, startCalls]

/-- C3 at the accepted account `admin`/`secret` and the malformed body `[7]`:
the world counts the one call of `Authenticate`. -/
theorem startModule_decode_failure_witness :
    (startModule demoServer demoUtils [("name", "foo")] (credentials "admin" "secret") (some [7]) 0).err
      = some (GoError.trace (GoError.foreign "invalid character"))
    ∧ (startModule demoServer demoUtils [("name", "foo")] (credentials "admin" "secret")
        (some [7]) 0).err.map GoError.message = some (GoError.foreign "invalid character").message
    ∧ (startModule demoServer demoUtils [("name", "foo")] (credentials "admin" "secret")
        (some [7]) 0).err.map GoError.cause = some (GoError.foreign "invalid character").cause
    ∧ (startModule demoServer demoUtils [("name", "foo")] (credentials "admin" "secret") (some [7]) 0).body
      = none
    ∧ startCalls (startModule demoServer demoUtils [("name", "foo")] (credentials "admin" "secret")
        (some [7]) 0).trace = []
    ∧ (startModule demoServer demoUtils [("name", "foo")] (credentials "admin" "secret")
        (some [7]) 0).world = 1 :=
  startModule_decode_failure demoServer demoUtils [("name", "foo")] (credentials "admin" "secret")
    [7] (GoError.foreign "invalid character") 0 (by decide) (by rfl)

/-- C4: with accepted credentials, `getPort` calls the port allocator exactly
once: with `127.0.0.1` when `params` has no key `host`, and with the value
under `host`, unchanged, when the key is present (the empty string included).
The call is the allocator itself being applied, in the world `Authenticate`
left: the world after the run is the one that single application returns, the
error of the run is the error it returns, and the trace holds `Authenticate`
and that one call and nothing else. -/
theorem getPort_allocator_host {σ : Type} (s : Server σ) (u : Utils σ)
    (params : Params) (headers : Headers) (reqBody : Option Bytes) (w : σ)
    (h : (s.engine.Authenticate (headers.Get "x-iot-edge-username")
      (headers.Get "x-iot-edge-password") w).1 = true) :
    (params.get? "host" = none →
      portCalls (getPort s u params headers reqBody w).trace = ["127.0.0.1"]
      ∧ (getPort s u params headers reqBody w).world =
        (u.GetPortAvailable "127.0.0.1" (s.engine.Authenticate (headers.Get "x-iot-edge-username")
          (headers.Get "x-iot-edge-password") w).2).2
      ∧ (getPort s u params headers reqBody w).err =
        (u.GetPortAvailable "127.0.0.1" (s.engine.Authenticate (headers.Get "x-iot-edge-username")
          (headers.Get "x-iot-edge-password") w).2).1.2.map GoError.trace)
    ∧ ((∀ entry ∈ params, entry.1 ≠ "host") →
      portCalls (getPort s u params headers reqBody w).trace = ["127.0.0.1"]
      ∧ (getPort s u params headers reqBody w).world =
        (u.GetPortAvailable "127.0.0.1" (s.engine.Authenticate (headers.Get "x-iot-edge-username")
          (headers.Get "x-iot-edge-password") w).2).2
      ∧ (getPort s u params headers reqBody w).err =
        (u.GetPortAvailable "127.0.0.1" (s.engine.Authenticate (headers.Get "x-iot-edge-username")
          (headers.Get "x-iot-edge-password") w).2).1.2.map GoError.trace)
    ∧ (∀ host : String, params.get? "host" = some host →
      portCalls (getPort s u params headers reqBody w).trace = [host]
      ∧ (getPort s u params headers reqBody w).world =
        (u.GetPortAvailable host (s.engine.Authenticate (headers.Get "x-iot-edge-username")
          (headers.Get "x-iot-edge-password") w).2).2
      ∧ (getPort s u params headers reqBody w).err =
        (u.GetPortAvailable host (s.engine.Authenticate (headers.Get "x-iot-edge-username")
          (headers.Get "x-iot-edge-password") w).2).1.2.map GoError.trace)
    ∧ (portCalls (getPort s u params headers reqBody w).trace).length = 1
    ∧ (getPort s u params headers reqBody w).trace =
      [Event.authenticate (headers.Get "x-iot-edge-username") (headers.Get "x-iot-edge-password"),
        Event.getPortAvailable ((params.get? "host").getD "127.0.0.1")] := by
  have ht := getPort_accepted_trace s u params headers reqBody w h
  have hw := getPort_accepted_world s u params headers reqBody w h
  obtain ⟨_, he, _⟩ := getPort_accepted_result s u params headers reqBody w h
  simp only [usernameHeader, passwordHeader] at ht hw he
  rw [ht, hw, he]
  have hkey : (∀ entry ∈ params, entry.1 ≠ "host") → params.get? "host" = none := by
    intro hk
    unfold Params.get?
    rw [List.lookup_eq_none_iff]
    intro entry hmem
    simp only [bne_iff_ne, ne_eq]
    exact fun heq => hk entry hmem heq.symm
  refine ⟨?_, ?_, ?_, ?_, ?_⟩
  · intro hn
    simp [portCalls, hn]
  · intro hk
    simp [portCalls, hkey hk]
  · intro host hs
    simp [portCalls, hs]
  · simp [portCalls]
  · rfl

/-- C4 at the accepted account: no parameters at all, and the key `host` with
the empty string as its value. The world counts two calls: `Authenticate` and
the allocator. -/
theorem getPort_allocator_host_witness :
    (portCalls (getPort demoServer demoUtils [] (credentials "admin" "secret") none 0).trace
        = ["127.0.0.1"]
      ∧ (getPort demoServer demoUtils [] (credentials "admin" "secret") none 0).world = 2)
    ∧ (portCalls (getPort demoServer demoUtils [("host", "")] (credentials "admin" "secret")
          none 0).trace = [""]
      ∧ (getPort demoServer demoUtils [("host", "")] (credentials "admin" "secret") none 0).world
        = 2) :=
  ⟨⟨((getPort_allocator_host demoServer demoUtils [] (credentials "admin" "secret") none 0
        (by decide)).1 (by decide)).1,
     ((getPort_allocator_host demoServer demoUtils [] (credentials "admin" "secret") none 0
        (by decide)).1 (by decide)).2.1⟩,
   ⟨((getPort_allocator_host demoServer demoUtils [("host", "")] (credentials "admin" "secret") none 0
        (by decide)).2.2.1 "" (by decide)).1,
    ((getPort_allocator_host demoServer demoUtils [("host", "")] (credentials "admin" "secret") none 0
        (by decide)).2.2.1 "" (by decide)).2.1⟩⟩

/-- C5: with accepted credentials, when the allocator returns port `p` and no
error, `getPort` returns no error and the body `{"port":p}` with `p` in
decimal: the bytes of the text built with `toString p`, for 8080 and 9000 the
texts `{"port":8080}` and `{"port":9000}`. For every `p` of the 64-bit Go type
`int` the body decodes to the single field `port` with value `p`. When the
allocator returns an error, `getPort` returns an error wrapping it and no
body. -/
theorem getPort_body_round_trip {σ : Type} (s : Server σ) (u : Utils σ)
    (params : Params) (headers : Headers) (reqBody : Option Bytes) (w : σ)
    (h : (s.engine.Authenticate (headers.Get "x-iot-edge-username")
      (headers.Get "x-iot-edge-password") w).1 = true) :
    (∀ p : Int,
      (u.GetPortAvailable ((params.get? "host").getD "127.0.0.1")
        (s.engine.Authenticate (headers.Get "x-iot-edge-username")
          (headers.Get "x-iot-edge-password") w).2).1 = (p, none) →
      (getPort s u params headers reqBody w).err = none
      ∧ (getPort s u params headers reqBody w).body
          = some (ascii "\x7b\"port\":" ++ formatInt p ++ ascii "\x7d")
      ∧ (getPort s u params headers reqBody w).body
          = some (ascii ("\x7b\"port\":" ++ toString p ++ "\x7d"))
      ∧ (-9223372036854775808 ≤ p → p < 9223372036854775808 →
          (getPort s u params headers reqBody w).body.bind decodeSingleIntField
            = some (ascii "port", p))
      ∧ (p = 8080 →
          (getPort s u params headers reqBody w).body = some (ascii "\x7b\"port\":8080\x7d"))
      ∧ (p = 9000 →
          (getPort s u params headers reqBody w).body = some (ascii "\x7b\"port\":9000\x7d")))
    ∧ (∀ e : GoError,
      (u.GetPortAvailable ((params.get? "host").getD "127.0.0.1")
        (s.engine.Authenticate (headers.Get "x-iot-edge-username")
          (headers.Get "x-iot-edge-password") w).2).1.2 = some e →
      (getPort s u params headers reqBody w).err = some (GoError.trace e)
      ∧ (getPort s u params headers reqBody w).body = none) := by
  refine ⟨?_, ?_⟩
  · intro p hp
    obtain ⟨hb, he⟩ := getPort_accepted_ok s u params headers reqBody w p h hp
    rw [hb, he]
    refine ⟨rfl, rfl, ?_, ?_, ?_, ?_⟩
    · simp only [marshalPortMap, ascii_append, formatInt_eq_toString]
    · intro hlo hhi
      simpa using decode_marshalPortMap p hlo hhi
    · intro h8
      subst h8
      decide
    · intro h9
      subst h9
      decide
  · intro e he
    obtain ⟨hb, hr, _⟩ := getPort_accepted_error s u params headers reqBody w e h he
    exact ⟨hr, hb⟩

/-- C5 at the accepted account: host `192.168.1.5`, for which the allocator
returns 9000; no host, for which it returns 8080; host `nohost`, for which it
fails. -/
theorem getPort_body_round_trip_witness :
    ((getPort demoServer demoUtils [("host", "192.168.1.5")] (credentials "admin" "secret") none 0).err
        = none
      ∧ (getPort demoServer demoUtils [("host", "192.168.1.5")] (credentials "admin" "secret")
          none 0).body = some (ascii "\x7b\"port\":9000\x7d")
      ∧ (getPort demoServer demoUtils [("host", "192.168.1.5")] (credentials "admin" "secret")
          none 0).body.bind decodeSingleIntField = some (ascii "port", 9000))
    ∧ (getPort demoServer demoUtils [] (credentials "admin" "secret") none 0).body
        = some (ascii "\x7b\"port\":8080\x7d")
    ∧ ((getPort demoServer demoUtils [("host", "nohost")] (credentials "admin" "secret") none 0).err
        = some (GoError.trace (GoError.foreign "no such host"))
      ∧ (getPort demoServer demoUtils [("host", "nohost")] (credentials "admin" "secret") none 0).body
        = none) :=
  ⟨⟨((getPort_body_round_trip demoServer demoUtils [("host", "192.168.1.5")]
        (credentials "admin" "secret") none 0 (by decide)).1 9000 (by decide)).1,
     ((getPort_body_round_trip demoServer demoUtils [("host", "192.168.1.5")]
        (credentials "admin" "secret") none 0 (by decide)).1 9000 (by decide)).2.2.2.2.2 rfl,
     ((getPort_body_round_trip demoServer demoUtils [("host", "192.168.1.5")]
        (credentials "admin" "secret") none 0 (by decide)).1 9000 (by decide)).2.2.2.1
        (by decide) (by decide)⟩,
   ((getPort_body_round_trip demoServer demoUtils []
      (credentials "admin" "secret") none 0 (by decide)).1 8080 (by decide)).2.2.2.2.1 rfl,
   (getPort_body_round_trip demoServer demoUtils [("host", "nohost")]
      (credentials "admin" "secret") none 0 (by decide)).2 (GoError.foreign "no such host")
      (by decide)⟩

/-- C6: with accepted credentials, `stopModule` calls `Engine.Stop` exactly
once, with the value of the path parameter `name`, in the world `Authenticate`
left: the world after the run is the one that single application returns, and
the trace holds one `Stop` call and no `Start` or allocator call. The outcome
does not depend on the request body. The handler returns no body and no error
when `Engine.Stop` returns nil, and it returns an error, `errors.Trace` of the
one `Engine.Stop` returned, exactly when `Engine.Stop` returns an error. -/
theorem stopModule_delegates {σ : Type} (s : Server σ) (u : Utils σ)
    (params : Params) (headers : Headers) (reqBody : Option Bytes) (w : σ)
    (h : (s.engine.Authenticate (headers.Get "x-iot-edge-username")
      (headers.Get "x-iot-edge-password") w).1 = true) :
    stopCalls (stopModule s u params headers reqBody w).trace = [params.index "name"]
    ∧ (∀ other : Option Bytes,
        stopModule s u params headers other w = stopModule s u params headers reqBody w)
    ∧ (stopModule s u params headers reqBody w).body = none
    ∧ ((s.engine.Stop (params.index "name") (s.engine.Authenticate (headers.Get "x-iot-edge-username")
          (headers.Get "x-iot-edge-password") w).2).1 = none →
        (stopModule s u params headers reqBody w).err = none)
    ∧ (∀ e : GoError,
        (s.engine.Stop (params.index "name") (s.engine.Authenticate (headers.Get "x-iot-edge-username")
          (headers.Get "x-iot-edge-password") w).2).1 = some e →
        (stopModule s u params headers reqBody w).err = some (GoError.trace e)
        ∧ (stopModule s u params headers reqBody w).err.map GoError.cause = some e.cause)
    ∧ ((stopModule s u params headers reqBody w).err.isSome = true ↔
        (s.engine.Stop (params.index "name") (s.engine.Authenticate (headers.Get "x-iot-edge-username")
          (headers.Get "x-iot-edge-password") w).2).1.isSome = true)
    ∧ (stopModule s u params headers reqBody w).world =
        (s.engine.Stop (params.index "name") (s.engine.Authenticate (headers.Get "x-iot-edge-username")
          (headers.Get "x-iot-edge-password") w).2).2
    ∧ startCalls (stopModule s u params headers reqBody w).trace = []
    ∧ portCalls (stopModule s u params headers reqBody w).trace = [] := by
  have hs := stopModule_accepted s u params headers reqBody w h
  simp only [usernameHeader, passwordHeader] at hs
  refine ⟨?_, ?_, ?_, ?_, ?_, ?_, ?_, ?_, ?_⟩
  · rw [hs]
    cases (s.engine.Stop (params.index "name") (s.engine.Authenticate
      (headers.Get "x-iot-edge-username") (headers.Get "x-iot-edge-password") w).2).1 <;>
      simp [stopCalls]
  · intro other
    rfl
  · rw [hs]
  · intro hn
    rw [hs]
    simp [hn]
  · intro e he
    rw [hs]
    simp [he, GoError.cause]
  · rw [hs]
    simp
  · rw [hs]
  · rw [hs]
    cases (s.engine.Stop (params.index "name") (s.engine.Authenticate
      (headers.Get "x-iot-edge-username") (headers.Get "x-iot-edge-password") w).2).1 <;>
      simp [startCalls]
  · rw [hs]
    cases (s.engine.Stop (params.index "name") (s.engine.Authenticate
      (headers.Get "x-iot-edge-username") (headers.Get "x-iot-edge-password") w).2).1 <;>
      simp [portCalls]

/-- C6 at the accepted account: module `foo` stops, module `bad` does not. The
world counts two calls: `Authenticate` and `Stop`. -/
theorem stopModule_delegates_witness :
    (stopCalls (stopModule demoServer demoUtils [("name", "foo")] (credentials "admin" "secret")
        (some [1]) 0).trace = ["foo"]
      ∧ (stopModule demoServer demoUtils [("name", "foo")] (credentials "admin" "secret")
        (some [1]) 0).err = none
      ∧ (stopModule demoServer demoUtils [("name", "foo")] (credentials "admin" "secret")
        (some [1]) 0).world = 2)
    ∧ (stopModule demoServer demoUtils [("name", "bad")] (credentials "admin" "secret")
        none 0).err = some (GoError.trace (GoError.foreign "stop failed")) :=
  ⟨⟨(stopModule_delegates demoServer demoUtils [("name", "foo")] (credentials "admin" "secret")
      (some [1]) 0 (by decide)).1,
    (stopModule_delegates demoServer demoUtils [("name", "foo")] (credentials "admin" "secret")
      (some [1]) 0 (by decide)).2.2.2.1 (by decide),
    (stopModule_delegates demoServer demoUtils [("name", "foo")] (credentials "admin" "secret")
      (some [1]) 0 (by decide)).2.2.2.2.2.2.1⟩,
   ((stopModule_delegates demoServer demoUtils [("name", "bad")] (credentials "admin" "secret")
      none 0 (by decide)).2.2.2.2.1 (GoError.foreign "stop failed") (by decide)).1⟩

/-- C7: with accepted credentials and a present body that decodes to the module
specification `m`, `startModule` calls `Engine.Start` exactly once, with `m`,
in the world `Authenticate` left: the world after the run is the one that
single application returns, and the trace holds one `Start` call and no `Stop`
or allocator call. The handler returns no body and no error when
`Engine.Start` returns nil, and it returns an error, `errors.Trace` of the one
`Engine.Start` returned, exactly when `Engine.Start` returns an error. -/
theorem startModule_delegates {σ : Type} (s : Server σ) (u : Utils σ)
    (params : Params) (headers : Headers) (data : Bytes) (m : Module) (w : σ)
    (h : (s.engine.Authenticate (headers.Get "x-iot-edge-username")
      (headers.Get "x-iot-edge-password") w).1 = true)
    (hd : u.UnmarshalJSON data = Except.ok m) :
    startCalls (startModule s u params headers (some data) w).trace = [m]
    ∧ (startModule s u params headers (some data) w).body = none
    ∧ ((s.engine.Start m (s.engine.Authenticate (headers.Get "x-iot-edge-username")
          (headers.Get "x-iot-edge-password") w).2).1 = none →
        (startModule s u params headers (some data) w).err = none)
    ∧ (∀ e : GoError,
        (s.engine.Start m (s.engine.Authenticate (headers.Get "x-iot-edge-username")
          (headers.Get "x-iot-edge-password") w).2).1 = some e →
        (startModule s u params headers (some data) w).err = some (GoError.trace e)
        ∧ (startModule s u params headers (some data) w).err.map GoError.cause = some e.cause)
    ∧ ((startModule s u params headers (some data) w).err.isSome = true ↔
        (s.engine.Start m (s.engine.Authenticate (headers.Get "x-iot-edge-username")
          (headers.Get "x-iot-edge-password") w).2).1.isSome = true)
    ∧ (startModule s u params headers (some data) w).world =
        (s.engine.Start m (s.engine.Authenticate (headers.Get "x-iot-edge-username")
          (headers.Get "x-iot-edge-password") w).2).2
    ∧ stopCalls (startModule s u params headers (some data) w).trace = []
    ∧ portCalls (startModule s u params headers (some data) w).trace = [] := by
  have hs := startModule_accepted_decoded s u params headers data m w h hd
  simp only [usernameHeader, passwordHeader] at hs
  refine ⟨?_, ?_, ?_, ?_, ?_, ?_, ?_, ?_⟩
  · rw [hs]
    cases (s.engine.Start m (s.engine.Authenticate
      (headers.Get "x-iot-edge-username") (headers.Get "x-iot-edge-password") w).2).1 <;>
      simp [startCalls]
  · rw [hs]
  · intro hn
    rw [hs]
    simp [hn]
  · intro e he
    rw [hs]
    simp [he, GoError.cause]
  · rw [hs]
    simp
  · rw [hs]
  · rw [hs]
    cases (s.engine.Start m (s.engine.Authenticate
      (headers.Get "x-iot-edge-username") (headers.Get "x-iot-edge-password") w).2).1 <;>
      simp [stopCalls]
  · rw [hs]
    cases (s.engine.Start m (s.engine.Authenticate
      (headers.Get "x-iot-edge-username") (headers.Get "x-iot-edge-password") w).2).1 <;>
      simp [portCalls]

/-- C7 at the accepted account: the body `[1]` decodes to module `foo`, which
starts; the body `[2]` decodes to module `bad`, which does not. The world
counts two calls: `Authenticate` and `Start`. -/
theorem startModule_delegates_witness :
    (startCalls (startModule demoServer demoUtils [("name", "foo")] (credentials "admin" "secret")
        (some [1]) 0).trace = [⟨"foo", []⟩]
      ∧ (startModule demoServer demoUtils [("name", "foo")] (credentials "admin" "secret")
        (some [1]) 0).err = none
      ∧ (startModule demoServer demoUtils [("name", "foo")] (credentials "admin" "secret")
        (some [1]) 0).world = 2)
    ∧ (startModule demoServer demoUtils [("name", "foo")] (credentials "admin" "secret")
        (some [2]) 0).err = some (GoError.trace (GoError.foreign "start failed")) :=
  ⟨⟨(startModule_delegates demoServer demoUtils [("name", "foo")] (credentials "admin" "secret")
      [1] ⟨"foo", []⟩ 0 (by decide) (by rfl)).1,
    (startModule_delegates demoServer demoUtils [("name", "foo")] (credentials "admin" "secret")
      [1] ⟨"foo", []⟩ 0 (by decide) (by rfl)).2.2.1 (by decide),
    (startModule_delegates demoServer demoUtils [("name", "foo")] (credentials "admin" "secret")
      [1] ⟨"foo", []⟩ 0 (by decide) (by rfl)).2.2.2.2.2.1⟩,
   ((startModule_delegates demoServer demoUtils [("name", "foo")] (credentials "admin" "secret")
      [2] ⟨"bad", []⟩ 0 (by decide) (by rfl)).2.2.2.1 (GoError.foreign "start failed")
      (by decide)).1⟩

/-- C8 as stated fails: with accepted credentials, `startModule` without a
body, `startModule` with a body that does not decode, and `getPort` on a host
for which the allocator fails each return an error and log nothing. -/
theorem error_without_log_counterexample :
    ((startModule demoServer demoUtils [("name", "foo")] (credentials "admin" "secret") none 0).err
        = some (GoError.errorf "Request body missing")
      ∧ logRecords (startModule demoServer demoUtils [("name", "foo")] (credentials "admin" "secret")
          none 0).trace = [])
    ∧ ((startModule demoServer demoUtils [("name", "foo")] (credentials "admin" "secret")
          (some [7]) 0).err = some (GoError.trace (GoError.foreign "invalid character"))
      ∧ logRecords (startModule demoServer demoUtils [("name", "foo")] (credentials "admin" "secret")
          (some [7]) 0).trace = [])
    ∧ ((getPort demoServer demoUtils [("host", "nohost")] (credentials "admin" "secret") none 0).err
        = some (GoError.trace (GoError.foreign "no such host"))
      ∧ logRecords (getPort demoServer demoUtils [("host", "nohost")] (credentials "admin" "secret")
          none 0).trace = []) := by
  decide

/-- C8, amended: each handler that returns the unauthorized error has logged
exactly one record for it, naming the account (and the path name for start and
stop); `startModule` and `stopModule` that return an error because
`Engine.Start` or `Engine.Stop` failed have logged exactly one record for it,
carrying the error of the engine and the module name. -/
theorem rejection_and_engine_failure_are_logged {σ : Type} (s : Server σ) (u : Utils σ)
    (params : Params) (headers : Headers) (reqBody : Option Bytes) (w : σ) :
    ((s.engine.Authenticate (headers.Get "x-iot-edge-username")
        (headers.Get "x-iot-edge-password") w).1 = false →
      ((startModule s u params headers reqBody w).err.isSome = true
        ∧ logRecords (startModule s u params headers reqBody w).trace =
          [⟨Level.error, none, "Unauthorized to start module (" ++ params.index "name"
            ++ ") by account (" ++ headers.Get "x-iot-edge-username" ++ ")"⟩])
      ∧ ((stopModule s u params headers reqBody w).err.isSome = true
        ∧ logRecords (stopModule s u params headers reqBody w).trace =
          [⟨Level.error, none, "Unauthorized to stop module (" ++ params.index "name"
            ++ ") by account (" ++ headers.Get "x-iot-edge-username" ++ ")"⟩])
      ∧ ((getPort s u params headers reqBody w).err.isSome = true
        ∧ logRecords (getPort s u params headers reqBody w).trace =
          [⟨Level.error, none, "Unauthorized to get port by account ("
            ++ headers.Get "x-iot-edge-username" ++ ")"⟩]))
    ∧ ((s.engine.Authenticate (headers.Get "x-iot-edge-username")
        (headers.Get "x-iot-edge-password") w).1 = true →
      (∀ (data : Bytes) (m : Module) (e : GoError), reqBody = some data →
        u.UnmarshalJSON data = Except.ok m →
        (s.engine.Start m (s.engine.Authenticate (headers.Get "x-iot-edge-username")
          (headers.Get "x-iot-edge-password") w).2).1 = some e →
        (startModule s u params headers reqBody w).err.isSome = true
        ∧ logRecords (startModule s u params headers reqBody w).trace =
          [⟨Level.error, some e, "Failed to start module (" ++ m.Name ++ ")"⟩])
      ∧ (∀ e : GoError,
        (s.engine.Stop (params.index "name") (s.engine.Authenticate (headers.Get "x-iot-edge-username")
          (headers.Get "x-iot-edge-password") w).2).1 = some e →
        (stopModule s u params headers reqBody w).err.isSome = true
        ∧ logRecords (stopModule s u params headers reqBody w).trace =
          [⟨Level.error, some e, "Failed to stop module (" ++ params.index "name" ++ ")"⟩])) := by
  refine ⟨?_, ?_⟩
  · intro h
    have h1 := startModule_rejected s u params headers reqBody w h
    have h2 := stopModule_rejected s u params headers reqBody w h
    have h3 := getPort_rejected s u params headers reqBody w h
    simp only [usernameHeader, passwordHeader] at h1 h2 h3
    rw [h1, h2, h3]
    simp [logRecords]
  · intro h
    refine ⟨?_, ?_⟩
    · intro data m e hb hd he
      subst hb
      have hs := startModule_accepted_decoded s u params headers data m w h hd
      simp only [usernameHeader, passwordHeader] at hs
      rw [hs]
      simp [he, logRecords]
    · intro e he
      have hs := stopModule_accepted s u params headers reqBody w h
      simp only [usernameHeader, passwordHeader] at hs
      rw [hs]
      simp [he, logRecords]

/-- C8 amended, at a rejected password, and at the accepted account with module
`bad`, which neither starts nor stops. -/
theorem rejection_and_engine_failure_are_logged_witness :
    (logRecords (getPort demoServer demoUtils [("name", "bad")] (credentials "admin" "wrong")
        (some [2]) 0).trace =
      [⟨Level.error, none, "Unauthorized to get port by account ("
        ++ (credentials "admin" "wrong").Get "x-iot-edge-username" ++ ")"⟩])
    ∧ (logRecords (startModule demoServer demoUtils [("name", "bad")] (credentials "admin" "secret")
        (some [2]) 0).trace =
      [⟨Level.error, some (GoError.foreign "start failed"),
        "Failed to start module (" ++ (Module.mk "bad" []).Name ++ ")"⟩])
    ∧ (logRecords (stopModule demoServer demoUtils [("name", "bad")] (credentials "admin" "secret")
        (some [2]) 0).trace =
      [⟨Level.error, some (GoError.foreign "stop failed"),
        "Failed to stop module (" ++ Params.index [("name", "bad")] "name" ++ ")"⟩]) :=
  ⟨((rejection_and_engine_failure_are_logged demoServer demoUtils [("name", "bad")]
      (credentials "admin" "wrong") (some [2]) 0).1 (by decide)).2.2.2,
   (((rejection_and_engine_failure_are_logged demoServer demoUtils [("name", "bad")]
      (credentials "admin" "secret") (some [2]) 0).2 (by decide)).1 [2] ⟨"bad", []⟩
      (GoError.foreign "start failed") rfl (by rfl) (by decide)).2,
   (((rejection_and_engine_failure_are_logged demoServer demoUtils [("name", "bad")]
      (credentials "admin" "secret") (some [2]) 0).2 (by decide)).2
      (GoError.foreign "stop failed") (by decide)).2⟩

/-- C9: take two runs of a handler that differ only in the headers, where the
two header sets give the same account name, `Engine.Authenticate` answers the
same boolean, and afterwards `Engine.Start`, `Engine.Stop` and the allocator
return the same results. Then the log records, the body and the error of the
two runs are the same, for each of the three handlers: the password reaches
the outcome only through the answer of `Authenticate`. -/
theorem password_flows_only_through_authenticate {σ : Type} (s : Server σ) (u : Utils σ)
    (params : Params) (h1 h2 : Headers) (reqBody : Option Bytes) (w : σ)
    (hu : h1.Get "x-iot-edge-username" = h2.Get "x-iot-edge-username")
    (ha : (s.engine.Authenticate (h1.Get "x-iot-edge-username") (h1.Get "x-iot-edge-password") w).1
      = (s.engine.Authenticate (h2.Get "x-iot-edge-username") (h2.Get "x-iot-edge-password") w).1)
    (hstart : ∀ m : Module,
      (s.engine.Start m (s.engine.Authenticate (h1.Get "x-iot-edge-username")
        (h1.Get "x-iot-edge-password") w).2).1
      = (s.engine.Start m (s.engine.Authenticate (h2.Get "x-iot-edge-username")
        (h2.Get "x-iot-edge-password") w).2).1)
    (hstop : ∀ n : String,
      (s.engine.Stop n (s.engine.Authenticate (h1.Get "x-iot-edge-username")
        (h1.Get "x-iot-edge-password") w).2).1
      = (s.engine.Stop n (s.engine.Authenticate (h2.Get "x-iot-edge-username")
        (h2.Get "x-iot-edge-password") w).2).1)
    (hport : ∀ host : String,
      (u.GetPortAvailable host (s.engine.Authenticate (h1.Get "x-iot-edge-username")
        (h1.Get "x-iot-edge-password") w).2).1
      = (u.GetPortAvailable host (s.engine.Authenticate (h2.Get "x-iot-edge-username")
        (h2.Get "x-iot-edge-password") w).2).1) :
    (logRecords (startModule s u params h1 reqBody w).trace
        = logRecords (startModule s u params h2 reqBody w).trace
      ∧ (startModule s u params h1 reqBody w).body = (startModule s u params h2 reqBody w).body
      ∧ (startModule s u params h1 reqBody w).err = (startModule s u params h2 reqBody w).err)
    ∧ (logRecords (stopModule s u params h1 reqBody w).trace
        = logRecords (stopModule s u params h2 reqBody w).trace
      ∧ (stopModule s u params h1 reqBody w).body = (stopModule s u params h2 reqBody w).body
      ∧ (stopModule s u params h1 reqBody w).err = (stopModule s u params h2 reqBody w).err)
    ∧ (logRecords (getPort s u params h1 reqBody w).trace
        = logRecords (getPort s u params h2 reqBody w).trace
      ∧ (getPort s u params h1 reqBody w).body = (getPort s u params h2 reqBody w).body
      ∧ (getPort s u params h1 reqBody w).err = (getPort s u params h2 reqBody w).err) := by
  cases hb : (s.engine.Authenticate (h2.Get "x-iot-edge-username")
      (h2.Get "x-iot-edge-password") w).1
  · rw [hb] at ha
    rw [startModule_rejected s u params h1 reqBody w ha, startModule_rejected s u params h2 reqBody w hb,
      stopModule_rejected s u params h1 reqBody w ha, stopModule_rejected s u params h2 reqBody w hb,
      getPort_rejected s u params h1 reqBody w ha, getPort_rejected s u params h2 reqBody w hb]
    simp [logRecords, usernameHeader, hu]
  · rw [hb] at ha
    refine ⟨?_, ?_, ?_⟩
    · cases reqBody with
      | none =>
        rw [startModule_accepted_no_body s u params h1 w ha,
          startModule_accepted_no_body s u params h2 w hb]
        simp [logRecords]
      | some data =>
        cases hd : u.UnmarshalJSON data with
        | error e =>
          rw [startModule_accepted_undecodable s u params h1 data e w ha hd,
            startModule_accepted_undecodable s u params h2 data e w hb hd]
          simp [logRecords]
        | ok m =>
          rw [startModule_accepted_decoded s u params h1 data m w ha hd,
            startModule_accepted_decoded s u params h2 data m w hb hd]
          have hm := hstart m
          simp only [usernameHeader, passwordHeader]
          rw [hm]
          cases (s.engine.Start m (s.engine.Authenticate (h2.Get "x-iot-edge-username")
            (h2.Get "x-iot-edge-password") w).2).1 <;> simp [logRecords]
    · rw [stopModule_accepted s u params h1 reqBody w ha, stopModule_accepted s u params h2 reqBody w hb]
      have hn := hstop (params.index "name")
      simp only [usernameHeader, passwordHeader]
      rw [hn]
      cases (s.engine.Stop (params.index "name") (s.engine.Authenticate
        (h2.Get "x-iot-edge-username") (h2.Get "x-iot-edge-password") w).2).1 <;> simp [logRecords]
    · obtain ⟨b1, e1, l1⟩ := getPort_accepted_result s u params h1 reqBody w ha
      obtain ⟨b2, e2, l2⟩ := getPort_accepted_result s u params h2 reqBody w hb
      have hp := hport ((params.get? "host").getD "127.0.0.1")
      simp only [usernameHeader, passwordHeader] at b1 e1 b2 e2
      rw [b1, e1, l1, b2, e2, l2, hp]
      exact ⟨rfl, rfl, rfl⟩

/-- C9 for the account `admin` with two different rejected passwords. -/
theorem password_flows_only_through_authenticate_witness :
    (logRecords (startModule demoServer demoUtils [("name", "foo")] (credentials "admin" "wrong")
          (some [1]) 0).trace
        = logRecords (startModule demoServer demoUtils [("name", "foo")] (credentials "admin" "other")
          (some [1]) 0).trace
      ∧ (startModule demoServer demoUtils [("name", "foo")] (credentials "admin" "wrong")
          (some [1]) 0).body
        = (startModule demoServer demoUtils [("name", "foo")] (credentials "admin" "other")
          (some [1]) 0).body
      ∧ (startModule demoServer demoUtils [("name", "foo")] (credentials "admin" "wrong")
          (some [1]) 0).err
        = (startModule demoServer demoUtils [("name", "foo")] (credentials "admin" "other")
          (some [1]) 0).err)
    ∧ logRecords (startModule demoServer demoUtils [("name", "foo")] (credentials "admin" "wrong")
          (some [1]) 0).trace
        = [⟨Level.error, none, "Unauthorized to start module (foo) by account (admin)"⟩] :=
  ⟨(password_flows_only_through_authenticate demoServer demoUtils [("name", "foo")]
      (credentials "admin" "wrong") (credentials "admin" "other") (some [1]) 0
      (by decide) (by decide) (fun _ => rfl) (fun _ => rfl) (fun _ => rfl)).1,
   by decide⟩

/-- C10: with accepted credentials, `startModule` does not depend on the path
parameters: two runs with the same headers and body and any two `params` have
the same outcome (calls, log records, body, error, world). When the body
decodes to `m`, `Engine.Start` receives `m` whatever the path name is, and
when `Engine.Start` fails the one log record names `m.Name`. -/
theorem startModule_ignores_path_name {σ : Type} (s : Server σ) (u : Utils σ)
    (params1 params2 : Params) (headers : Headers) (reqBody : Option Bytes) (w : σ)
    (h : (s.engine.Authenticate (headers.Get "x-iot-edge-username")
      (headers.Get "x-iot-edge-password") w).1 = true) :
    startModule s u params1 headers reqBody w = startModule s u params2 headers reqBody w
    ∧ (∀ (data : Bytes) (m : Module), reqBody = some data → u.UnmarshalJSON data = Except.ok m →
        startCalls (startModule s u params1 headers reqBody w).trace = [m]
        ∧ (∀ e : GoError,
          (s.engine.Start m (s.engine.Authenticate (headers.Get "x-iot-edge-username")
            (headers.Get "x-iot-edge-password") w).2).1 = some e →
          (startModule s u params1 headers reqBody w).err = some (GoError.trace e)
          ∧ logRecords (startModule s u params1 headers reqBody w).trace =
            [⟨Level.error, some e, "Failed to start module (" ++ m.Name ++ ")"⟩])) := by
  refine ⟨?_, ?_⟩
  · have h0 : (s.engine.Authenticate (headers.Get usernameHeader)
        (headers.Get passwordHeader) w).1 = true := h
    simp only [startModule, h0]
    rfl
  · intro data m hb hd
    subst hb
    have hs := startModule_accepted_decoded s u params1 headers data m w h hd
    simp only [usernameHeader, passwordHeader] at hs
    rw [hs]
    refine ⟨?_, ?_⟩
    · cases (s.engine.Start m (s.engine.Authenticate
        (headers.Get "x-iot-edge-username") (headers.Get "x-iot-edge-password") w).2).1 <;>
        simp [startCalls]
    · intro e he
      simp [he, logRecords]

/-- C10 at the accepted account: path names `foo` and `other`, body `[2]`, which
decodes to module `bad`, whose start fails. -/
theorem startModule_ignores_path_name_witness :
    startModule demoServer demoUtils [("name", "foo")] (credentials "admin" "secret") (some [2]) 0
      = startModule demoServer demoUtils [("name", "other")] (credentials "admin" "secret") (some [2]) 0
    ∧ startCalls (startModule demoServer demoUtils [("name", "foo")] (credentials "admin" "secret")
        (some [2]) 0).trace = [⟨"bad", []⟩]
    ∧ logRecords (startModule demoServer demoUtils [("name", "foo")] (credentials "admin" "secret")
        (some [2]) 0).trace =
      [⟨Level.error, some (GoError.foreign "start failed"),
        "Failed to start module (" ++ (Module.mk "bad" []).Name ++ ")"⟩] :=
  ⟨(startModule_ignores_path_name demoServer demoUtils [("name", "foo")] [("name", "other")]
      (credentials "admin" "secret") (some [2]) 0 (by decide)).1,
   ((startModule_ignores_path_name demoServer demoUtils [("name", "foo")] [("name", "other")]
      (credentials "admin" "secret") (some [2]) 0 (by decide)).2 [2] ⟨"bad", []⟩ rfl (by rfl)).1,
   (((startModule_ignores_path_name demoServer demoUtils [("name", "foo")] [("name", "other")]
      (credentials "admin" "secret") (some [2]) 0 (by decide)).2 [2] ⟨"bad", []⟩ rfl (by rfl)).2
      (GoError.foreign "start failed") (by decide)).2⟩

end Api
